import Mathlib

/-!
Verification development for a small wire-compatible key-value server
(Rust sources: `client.rs` frame codec, `persistence.rs` snapshot decoder,
`database.rs` store).  Bytes are modelled as `Nat` values below 256, byte
buffers as `List Nat`, Rust `String` values as their UTF-8 byte sequences,
and `SystemTime` instants as `Nat`.  Rust panics (out-of-bounds slicing,
`todo!`, `panic!`) are modelled by an explicit `crash` outcome.
-/

set_option autoImplicit false
set_option maxRecDepth 10000

namespace RedisModel

/-! ### Association-list maps

`HashMap` values from the source are modelled as association lists with
unique keys: `alInsert` replaces any existing binding (like
`HashMap::insert`), `alScrub` removes every binding of a key (on unique-key
lists this coincides with `HashMap::remove`), iteration order is abstract. -/

/-- Model of `HashMap::get`. -/
def alGet {κ α : Type} [DecidableEq κ] : List (κ × α) → κ → Option α
  | [], _ => none
  | p :: rest, k => if p.1 = k then some p.2 else alGet rest k

/-- Remove all bindings of a key; models `HashMap::remove` (unique keys). -/
def alScrub {κ α : Type} [DecidableEq κ] (k : κ) : List (κ × α) → List (κ × α)
  | [] => []
  | p :: rest => if p.1 = k then alScrub k rest else p :: alScrub k rest

/-- Model of `HashMap::insert`: unconditionally (re)binds the key. -/
def alInsert {κ α : Type} [DecidableEq κ] (m : List (κ × α)) (k : κ) (v : α) : List (κ × α) :=
  (k, v) :: alScrub k m

/-! ### Byte-level helpers -/

/-- Base-10 ASCII digits of a natural number, as bytes
(models `usize::to_string` / `format!` of a non-negative integer). -/
def natDecimal (n : Nat) : List Nat := (Nat.toDigits 10 n).map Char.toNat

/-- Is the byte an ASCII digit. -/
def isDigit (b : Nat) : Bool := decide (48 ≤ b ∧ b ≤ 57)

/-- Value of a non-empty all-digit byte run, `none` otherwise. -/
def digitsVal (l : List Nat) : Option Nat :=
  match l with
  | [] => none
  | _ =>
    if l.all (fun b => isDigit b) then
      some (l.foldl (fun acc b => acc * 10 + (b - 48)) 0)
    else none

/-- Model of `str::parse::<i32>` applied to the (lossy-decoded) bytes:
an optional sign followed by at least one digit, value within `i32` range.
Lossy UTF-8 replacement never yields sign or digit bytes, so parsing the raw
bytes is equivalent to parsing the lossy-decoded string. -/
def parseI32 (s : List Nat) : Option Int :=
  match s with
  | 43 :: rest =>
    (digitsVal rest).bind (fun n => if n ≤ 2147483647 then some (Int.ofNat n) else none)
  | 45 :: rest =>
    (digitsVal rest).bind (fun n => if n ≤ 2147483648 then some (-(Int.ofNat n)) else none)
  | _ =>
    (digitsVal s).bind (fun n => if n ≤ 2147483647 then some (Int.ofNat n) else none)

/-- Model of `u16::from_str`: optional plus sign, digits, value below 2^16. -/
def parseU16 (s : List Nat) : Option Nat :=
  match s with
  | 43 :: rest => (digitsVal rest).bind (fun n => if n ≤ 65535 then some n else none)
  | _ => (digitsVal s).bind (fun n => if n ≤ 65535 then some n else none)

/-- Little-endian value of a byte list. -/
def leValue : List Nat → Nat
  | [] => 0
  | b :: rest => b + 256 * leValue rest

/-! ### UTF-8 validation and lossy decoding

`String::from_utf8_lossy` re-encoded to bytes: valid sequences are copied
verbatim, each maximal invalid subpart is replaced by U+FFFD
(bytes `EF BF BD`), following the table used by Rust's std validator. -/

/-- Is the byte a UTF-8 continuation byte (`0x80..=0xBF`). -/
def isCont (b : Nat) : Bool := decide (128 ≤ b ∧ b ≤ 191)

/-- UTF-8 bytes of the replacement character U+FFFD. -/
def repChar : List Nat := [239, 191, 189]

/-- Allowed range of the second byte of a multi-byte sequence headed by `b0`. -/
def isSecond (b0 b1 : Nat) : Bool :=
  if b0 = 224 then decide (160 ≤ b1 ∧ b1 ≤ 191)
  else if b0 = 237 then decide (128 ≤ b1 ∧ b1 ≤ 159)
  else if b0 = 240 then decide (144 ≤ b1 ∧ b1 ≤ 191)
  else if b0 = 244 then decide (128 ≤ b1 ∧ b1 ≤ 143)
  else isCont b1

/-- One lossy-decoding step at head byte `b0`: the bytes to emit (the valid
sequence verbatim, or U+FFFD for the maximal invalid subpart) and the
remaining input after it. Always consumes at least the head byte. -/
def utf8Step (b0 : Nat) (rest : List Nat) : List Nat × List Nat :=
  if b0 ≤ 127 then ([b0], rest)
  else if 194 ≤ b0 ∧ b0 ≤ 223 then
    match rest with
    | b1 :: rest1 => if isCont b1 then ([b0, b1], rest1) else (repChar, rest)
    | [] => (repChar, [])
  else if 224 ≤ b0 ∧ b0 ≤ 239 then
    match rest with
    | b1 :: rest1 =>
      if isSecond b0 b1 then
        match rest1 with
        | b2 :: rest2 =>
          if isCont b2 then ([b0, b1, b2], rest2) else (repChar, rest1)
        | [] => (repChar, [])
      else (repChar, rest)
    | [] => (repChar, [])
  else if 240 ≤ b0 ∧ b0 ≤ 244 then
    match rest with
    | b1 :: rest1 =>
      if isSecond b0 b1 then
        match rest1 with
        | b2 :: rest2 =>
          if isCont b2 then
            match rest2 with
            | b3 :: rest3 =>
              if isCont b3 then ([b0, b1, b2, b3], rest3) else (repChar, rest2)
            | [] => (repChar, [])
          else (repChar, rest1)
        | [] => (repChar, [])
      else (repChar, rest)
    | [] => (repChar, [])
  else (repChar, rest)

/-- Driver for `utf8Step`; the fuel (initialised to the input length, an upper
bound on the number of steps since each step consumes at least one byte) only
serves structural termination. -/
def utf8LossyGo : Nat → List Nat → List Nat
  | 0, _ => []
  | _ + 1, [] => []
  | fuel + 1, b0 :: rest =>
    let step := utf8Step b0 rest
    step.1 ++ utf8LossyGo fuel step.2

/-- Model of `String::from_utf8_lossy` followed by re-encoding to bytes. -/
def utf8Lossy (l : List Nat) : List Nat := utf8LossyGo l.length l

/-- Model of `std::str::from_utf8(..).is_ok()`. -/
def utf8Valid : List Nat → Bool
  | [] => true
  | b0 :: rest =>
    if b0 ≤ 127 then utf8Valid rest
    else if 194 ≤ b0 ∧ b0 ≤ 223 then
      match rest with
      | b1 :: rest1 => isCont b1 && utf8Valid rest1
      | [] => false
    else if 224 ≤ b0 ∧ b0 ≤ 239 then
      match rest with
      | b1 :: rest1 =>
        isSecond b0 b1 &&
          (match rest1 with
           | b2 :: rest2 => isCont b2 && utf8Valid rest2
           | [] => false)
      | [] => false
    else if 240 ≤ b0 ∧ b0 ≤ 244 then
      match rest with
      | b1 :: rest1 =>
        isSecond b0 b1 &&
          (match rest1 with
           | b2 :: rest2 =>
             isCont b2 &&
               (match rest2 with
                | b3 :: rest3 => isCont b3 && utf8Valid rest3
                | [] => false)
           | [] => false)
      | [] => false
    else false

/-! ### Frame Codec (client.rs)

`ResponseType`, `RedisClientConnection::parse_resp` / `parse_bulk_string` /
`parse_array` / `get_next_part_end`, and the writer functions.  The Rust
parser returns `Result<Option<RespParseResult>, RespProtocolError>`; the
model collapses this into `ParseOutcome`, where `crash` stands for a Rust
out-of-bounds slice panic (`&remainder[..length]` / `&remainder[c + 2..]`). -/

/-- client.rs `ResponseType` (only the live variants). -/
inductive ResponseType where
  | BulkString (bytes : List Nat)
  | Array (elements : List ResponseType)

/-- client.rs `RespProtocolError`.  The payloads of the two invalid-length
variants carry the offending prefix bytes (the source stringifies them). -/
inductive RespProtocolError where
  | MessageTooBig
  | UnhandledRespDataType (c : Nat)
  | ArrayNumElementsInvalidLength (s : List Nat)
  | BulkStringInvalidLength (s : List Nat)

/-- Outcome of `parse_resp`: `ok` = `Ok(Some(RespParseResult))`,
`incomplete` = `Ok(None)`, `err` = `Err(..)`, `crash` = Rust panic. -/
inductive ParseOutcome where
  | ok (request : ResponseType) (consumed : Nat)
  | incomplete
  | err (e : RespProtocolError)
  | crash

/-- Scan for the first CRLF; models the loop body of `get_next_part_end`:
returns `i + 1` (the index of the LF) when `buffer[i] = CR`, `buffer[i+1] = LF`. -/
def gnpeGo : List Nat → Nat → Option Nat
  | b1 :: b2 :: rest, i =>
    if b1 = 13 ∧ b2 = 10 then some (i + 1) else gnpeGo (b2 :: rest) (i + 1)
  | _, _ => none

/-- client.rs `RedisClientConnection::get_next_part_end`. -/
def get_next_part_end (buffer : List Nat) : Option Nat := gnpeGo buffer 0

/-- client.rs `RedisClientConnection::parse_bulk_string`.  Rust slices
`remainder[..length]` without a bounds check, which panics (`crash`) when
fewer than `length` bytes are available. -/
def parse_bulk_string (string_part remainder : List Nat) : ParseOutcome :=
  match parseI32 string_part with
  | none => .err (.BulkStringInvalidLength string_part)
  | some length =>
    if length < 0 then .err (.BulkStringInvalidLength string_part)
    else
      let length := length.toNat
      if remainder.length < length then .crash
      else .ok (.BulkString (remainder.take length)) length

/-- Number of iterations of Rust `for _ in 0..num_elements` with an `i32`
bound (zero when the bound is non-positive). -/
def parse_array_count (n : Int) : Nat := if n ≤ 0 then 0 else n.toNat

/-- The two recursion modes of the parser: a `parse_resp` call on a buffer,
or the element loop inside `parse_array` (count of elements still to read,
current remainder, accumulated elements in reverse, consumed bytes). -/
inductive ParseJob where
  | resp (buffer : List Nat)
  | elems (count : Nat) (remainder : List Nat) (acc : List ResponseType) (consumed : Nat)

/-- The recursive core of `parse_resp` / `parse_array`.  The fuel only
serves structural termination; every nested `.resp` descent strips at least
two bytes from the buffer and every `.elems` iteration at least two bytes
from the remainder, so the fuel supplied by `parse_resp` below is never
exhausted (the `0` arm is unreachable from `parse_resp`). -/
def parseRun : Nat → ParseJob → ParseOutcome
  | 0, _ => .incomplete
  | fuel + 1, .resp buffer =>
    match get_next_part_end buffer with
    | none => .incomplete
    | some part_end =>
      if part_end = 0 then .incomplete
      else
        let prefix_end := part_end - 1
        let tag := buffer.headD 0
        let inner : ParseOutcome :=
          if tag = 42 then
            match parseI32 ((buffer.drop 1).take (prefix_end - 1)) with
            | none => .err (.ArrayNumElementsInvalidLength ((buffer.drop 1).take (prefix_end - 1)))
            | some n =>
              parseRun fuel (.elems (parse_array_count n) (buffer.drop (part_end + 1)) [] 0)
          else if tag = 36 then
            parse_bulk_string ((buffer.drop 1).take (prefix_end - 1)) (buffer.drop (part_end + 1))
          else .err (.UnhandledRespDataType tag)
        match inner with
        | .ok request consumed => .ok request (consumed + (prefix_end + 2))
        | other => other
  | fuel + 1, .elems count remainder acc consumed =>
    match count with
    | 0 => .ok (.Array acc.reverse) consumed
    | count' + 1 =>
      match get_next_part_end remainder with
      | none => .incomplete
      | some _ =>
        match parseRun fuel (.resp remainder) with
        | .incomplete => .incomplete
        | .err e => .err e
        | .crash => .crash
        | .ok request c =>
          if remainder.length < c + 2 then .crash
          else parseRun fuel (.elems count' (remainder.drop (c + 2)) (request :: acc) (consumed + (c + 2)))

/-- client.rs `RedisClientConnection::parse_resp` (one attempt on the
current buffer contents, as driven by `read`). -/
def parse_resp (buffer : List Nat) : ParseOutcome :=
  parseRun (2 * buffer.length + 4) (.resp buffer)

/-- client.rs `write_bulk_string`: `format!("${}\r\n{}\r\n", string.len(),
String::from_utf8_lossy(string))` — the declared length comes from the raw
bytes while the payload is the lossy-decoded text. -/
def write_bulk_string (string : List Nat) : List Nat :=
  36 :: natDecimal string.length ++ [13, 10] ++ utf8Lossy string ++ [13, 10]

mutual

/-- client.rs `write_resp`. -/
def write_resp : ResponseType → List Nat
  | .Array elements => 42 :: natDecimal elements.length ++ [13, 10] ++ write_elems elements
  | .BulkString s => write_bulk_string s

/-- The element loop of client.rs `write_array` (the `*<len>\r\n` header is
emitted by `write_resp` above). -/
def write_elems : List ResponseType → List Nat
  | [] => []
  | e :: rest => write_resp e ++ write_elems rest

end

/-! ### Snapshot Decoder (persistence.rs)

The async byte reader is modelled by explicit state passing: every reading
function takes the remaining input and returns the value together with the
unread suffix.  `RdbResult.err .IoError` models any `tokio::io::Error`
(in particular `read_exact` hitting end of file), and `RdbResult.crash`
models the two Rust panics (`todo!` on compressed strings / non-string
value types, `panic!` on special-format selectors above 3). -/

/-- persistence.rs `DataType`. -/
inductive DataType where
  | String (s : List Nat)
  | List
  | Set
  | SortedSet
  | Hash
  | ZipMap
  | ZipList
  | IntSet
  | SortedSetZipList
  | HashMapZipList
  | ListQuickList
deriving DecidableEq

/-- persistence.rs `RdbReadError` (the three `#[from]` wrappers carry no
payload in the model). -/
inductive RdbReadError where
  | NotRedisDatabase
  | IoError
  | Utf8Error
  | ParseIntError
  | InvalidLengthEncoding (b : Nat)
  | SpecialFormatInvalidIntEncoded
  | InvalidExpiryTimestampFlag (b : Nat)
  | AttemptReadKeyWithoutDatabaseSelected
deriving DecidableEq

/-- `Ok` / `Err` / Rust panic, for the snapshot reader. -/
inductive RdbResult (α : Type) where
  | ok (value : α)
  | err (e : RdbReadError)
  | crash
deriving DecidableEq

/-- persistence.rs `LengthEncoding`. -/
inductive LengthEncoding where
  | Remaining6Bits
  | RemainingAndNextByte
  | DiscardRemainingGetNext4Bytes
  | SpecialFormat
deriving DecidableEq

/-- `read_u8` on the byte stream (end of input is an IO error). -/
def readU8 : List Nat → RdbResult (Nat × List Nat)
  | [] => .err .IoError
  | b :: rest => .ok (b, rest)

/-- `read_exact` of `n` bytes. -/
def readExact : Nat → List Nat → RdbResult (List Nat × List Nat)
  | 0, s => .ok ([], s)
  | _ + 1, [] => .err .IoError
  | n + 1, b :: rest =>
    match readExact n rest with
    | .ok (bs, s) => .ok (b :: bs, s)
    | .err e => .err e
    | .crash => .crash

/-- `read_u16_le`. -/
def readU16le (s : List Nat) : RdbResult (Nat × List Nat) :=
  match readExact 2 s with
  | .ok (bs, s1) => .ok (leValue bs, s1)
  | .err e => .err e
  | .crash => .crash

/-- `read_u32_le`. -/
def readU32le (s : List Nat) : RdbResult (Nat × List Nat) :=
  match readExact 4 s with
  | .ok (bs, s1) => .ok (leValue bs, s1)
  | .err e => .err e
  | .crash => .crash

/-- `read_u64_le`. -/
def readU64le (s : List Nat) : RdbResult (Nat × List Nat) :=
  match readExact 8 s with
  | .ok (bs, s1) => .ok (leValue bs, s1)
  | .err e => .err e
  | .crash => .crash

/-- persistence.rs `read_length_encoding`: one byte, top two bits select the
scheme, `remaining_bits = length & !mask` keeps the low six bits.  The
defensive `x => Err(InvalidLengthEncoding(x))` arm of the Rust match is kept
(unreachable for byte input). -/
def read_length_encoding (s : List Nat) : RdbResult ((LengthEncoding × Nat) × List Nat) :=
  match readU8 s with
  | .err e => .err e
  | .crash => .crash
  | .ok (length, s1) =>
    let remaining_bits := length &&& 63
    match (length &&& 192) >>> 6 with
    | 0 => .ok ((.Remaining6Bits, remaining_bits), s1)
    | 1 => .ok ((.RemainingAndNextByte, remaining_bits), s1)
    | 2 => .ok ((.DiscardRemainingGetNext4Bytes, 0), s1)
    | 3 => .ok ((.SpecialFormat, remaining_bits), s1)
    | x => .err (.InvalidLengthEncoding x)

/-- persistence.rs `interpret_length_encoding`. -/
def interpret_length_encoding (s : List Nat) (length_encoding : LengthEncoding)
    (length : Nat) : RdbResult (Nat × List Nat) :=
  match length_encoding with
  | .Remaining6Bits => .ok (length, s)
  | .DiscardRemainingGetNext4Bytes => readU32le s
  | .RemainingAndNextByte =>
    match readU8 s with
    | .ok (b, s1) => .ok ((length <<< 8) ||| b, s1)
    | .err e => .err e
    | .crash => .crash
  | .SpecialFormat => .err .SpecialFormatInvalidIntEncoded

/-- persistence.rs `read_length_encoded_int`. -/
def read_length_encoded_int (s : List Nat) : RdbResult (Nat × List Nat) :=
  match read_length_encoding s with
  | .err e => .err e
  | .crash => .crash
  | .ok ((encoding, length), s1) => interpret_length_encoding s1 encoding length

/-- persistence.rs `read_string_encoded`.  Special-format selectors 0/1/2
read 1/2/4 little-endian bytes and stringify them in base 10; selector 3 is
`todo!` and anything above is `panic!` — both `crash`.  Plain lengths read
that many raw bytes through `String::from_utf8_lossy`. -/
def read_string_encoded (s : List Nat) : RdbResult (List Nat × List Nat) :=
  match read_length_encoding s with
  | .err e => .err e
  | .crash => .crash
  | .ok ((encoding, length), s1) =>
    if encoding = LengthEncoding.SpecialFormat then
      match length with
      | 0 =>
        match readU8 s1 with
        | .ok (v, s2) => .ok (natDecimal v, s2)
        | .err e => .err e
        | .crash => .crash
      | 1 =>
        match readU16le s1 with
        | .ok (v, s2) => .ok (natDecimal v, s2)
        | .err e => .err e
        | .crash => .crash
      | 2 =>
        match readU32le s1 with
        | .ok (v, s2) => .ok (natDecimal v, s2)
        | .err e => .err e
        | .crash => .crash
      | 3 => .crash
      | _ + 4 => .crash
    else
      match interpret_length_encoding s1 encoding length with
      | .err e => .err e
      | .crash => .crash
      | .ok (len, s2) =>
        match readExact len s2 with
        | .ok (buff, s3) => .ok (utf8Lossy buff, s3)
        | .err e => .err e
        | .crash => .crash

/-- persistence.rs `ExpiryTimestamp`. -/
inductive ExpiryTimestamp where
  | Seconds (v : Nat)
  | Milliseconds (v : Nat)
deriving DecidableEq

/-- persistence.rs `read_expiry_timestamp`: reads a flag byte itself and
dispatches on it (0xFD = seconds over 4 LE bytes, 0xFC = milliseconds over
8 LE bytes, anything else is an error). -/
def read_expiry_timestamp (s : List Nat) : RdbResult (ExpiryTimestamp × List Nat) :=
  match readU8 s with
  | .err e => .err e
  | .crash => .crash
  | .ok (flag, s1) =>
    if flag = 253 then
      match readU32le s1 with
      | .ok (v, s2) => .ok (.Seconds v, s2)
      | .err e => .err e
      | .crash => .crash
    else if flag = 252 then
      match readU64le s1 with
      | .ok (v, s2) => .ok (.Milliseconds v, s2)
      | .err e => .err e
      | .crash => .crash
    else .err (.InvalidExpiryTimestampFlag flag)

/-- persistence.rs `read_value_type`: only tag 0 (UTF-8 string) is
implemented; every other tag is `todo!` (crash). -/
def read_value_type (s : List Nat) (value_type : Nat) : RdbResult (DataType × List Nat) :=
  if value_type = 0 then
    match read_string_encoded s with
    | .ok (v, s1) => .ok (.String v, s1)
    | .err e => .err e
    | .crash => .crash
  else .crash

/-- persistence.rs `read_key_value`. -/
def read_key_value (s : List Nat) (known_type : Option Nat) :
    RdbResult ((List Nat × DataType) × List Nat) :=
  let vt : RdbResult (Nat × List Nat) :=
    match known_type with
    | some t => .ok (t, s)
    | none => readU8 s
  match vt with
  | .err e => .err e
  | .crash => .crash
  | .ok (value_type, s1) =>
    match read_string_encoded s1 with
    | .err e => .err e
    | .crash => .crash
    | .ok (key, s2) =>
      match read_value_type s2 value_type with
      | .err e => .err e
      | .crash => .crash
      | .ok (value, s3) => .ok ((key, value), s3)

/-- persistence.rs `RdbData`.  NOTE: the struct in persistence.rs has no
`expirations` field, yet database.rs `db_load` reads `data.expirations`;
the model carries the field that `db_load` expects, and the reader below
never populates it (the 0xFC/0xFD timestamps are read and discarded under a
`TODO: Handle expiry` comment). -/
structure RdbData where
  rdb_version : Nat
  metadata : List (List Nat × List Nat)
  databases : List (Nat × List (List Nat × DataType))
  expirations : List (Nat × List (List Nat × Nat))
deriving DecidableEq

/-- Insert a key/value record into the current database, creating it on
first use (`databases.entry(db).or_insert_with(HashMap::new)` followed by
`database.insert(key, value)`). -/
def dbInsertKV (databases : List (Nat × List (List Nat × DataType))) (db : Nat)
    (key : List Nat) (value : DataType) : List (Nat × List (List Nat × DataType)) :=
  let database := match alGet databases db with
    | some m => m
    | none => []
  alInsert databases db (alInsert database key value)

/-- The opcode loop of persistence.rs `RdbReader::read`.  The fuel only
serves structural termination: every iteration consumes at least the opcode
byte, so with the fuel supplied by `rdbRead` the `0` arm is reached only on
an empty stream, where it returns the same IO error `read_u8` would. -/
def rdbLoop : Nat → List (List Nat × List Nat) → List (Nat × List (List Nat × DataType)) →
    Option Nat → List Nat →
    RdbResult ((List (List Nat × List Nat) × List (Nat × List (List Nat × DataType))) × List Nat)
  | 0, _, _, _, _ => .err .IoError
  | fuel + 1, metadata, databases, current_database, s =>
    match readU8 s with
    | .err e => .err e
    | .crash => .crash
    | .ok (opcode, s1) =>
      if opcode = 250 then
        -- 0xFA: auxiliary metadata field
        match read_string_encoded s1 with
        | .err e => .err e
        | .crash => .crash
        | .ok (key, s2) =>
          match read_string_encoded s2 with
          | .err e => .err e
          | .crash => .crash
          | .ok (value, s3) =>
            rdbLoop fuel (alInsert metadata key value) databases current_database s3
      else if opcode = 251 then
        -- 0xFB: resize hint; two length-encoded integers, read and discarded
        match read_length_encoded_int s1 with
        | .err e => .err e
        | .crash => .crash
        | .ok (_, s2) =>
          match read_length_encoded_int s2 with
          | .err e => .err e
          | .crash => .crash
          | .ok (_, s3) => rdbLoop fuel metadata databases current_database s3
      else if opcode = 252 ∨ opcode = 253 then
        -- 0xFC | 0xFD: expiry record
        match current_database with
        | none => .err .AttemptReadKeyWithoutDatabaseSelected
        | some db =>
          match read_expiry_timestamp s1 with
          | .err e => .err e
          | .crash => .crash
          | .ok (_, s2) =>
            -- timestamp discarded: `let _expire_timestamp = ...` (TODO: Handle expiry)
            match read_key_value s2 none with
            | .err e => .err e
            | .crash => .crash
            | .ok ((key, value), s3) =>
              rdbLoop fuel metadata (dbInsertKV databases db key value) current_database s3
      else if opcode = 254 then
        -- 0xFE: select database (one raw byte)
        match readU8 s1 with
        | .err e => .err e
        | .crash => .crash
        | .ok (database, s2) => rdbLoop fuel metadata databases (some database) s2
      else if opcode = 255 then
        -- 0xFF: end of file; 8-byte checksum read and discarded
        match readExact 8 s1 with
        | .err e => .err e
        | .crash => .crash
        | .ok (_, s2) => .ok ((metadata, databases), s2)
      else
        -- any other byte: value-type tag of a key/value record with no expiry
        match current_database with
        | none => .err .AttemptReadKeyWithoutDatabaseSelected
        | some db =>
          match read_key_value s1 (some opcode) with
          | .err e => .err e
          | .crash => .crash
          | .ok ((key, value), s2) =>
            rdbLoop fuel metadata (dbInsertKV databases db key value) current_database s2

/-- persistence.rs `RdbReader::read`, over the file contents: 5-byte magic
(`is_rdb_file`), 4 ASCII digits of version (`from_utf8` then
`u16::from_str`), then the opcode loop.  The returned `expirations` table is
always empty (see `RdbData`). -/
def rdbRead (file : List Nat) : RdbResult RdbData :=
  match readExact 5 file with
  | .err e => .err e
  | .crash => .crash
  | .ok (magic, s1) =>
    if magic = [82, 69, 68, 73, 83] then
      match readExact 4 s1 with
      | .err e => .err e
      | .crash => .crash
      | .ok (buff, s2) =>
        if utf8Valid buff then
          match parseU16 buff with
          | some rdb_version =>
            match rdbLoop s2.length [] [] none s2 with
            | .err e => .err e
            | .crash => .crash
            | .ok ((metadata, databases), _) =>
              .ok ⟨rdb_version, metadata, databases, []⟩
          | none => .err .ParseIntError
        else .err .Utf8Error
    else .err .NotRedisDatabase

/-! ### Store (database.rs)

The global `CACHE: HashMap<usize, Database>` behind its `RwLock` is
modelled by explicit state passing of a `Cache` value; `SystemTime::now()`
becomes an explicit `now : Nat` argument; keys and values (`String`) are
their byte sequences. -/

/-- database.rs `CacheEntry`. -/
structure CacheEntry where
  expiration : Option Nat
  value : DataType
deriving DecidableEq

/-- database.rs `type Database = HashMap<String, CacheEntry>`. -/
abbrev Database := List (List Nat × CacheEntry)

/-- The type of the global `CACHE` map. -/
abbrev Cache := List (Nat × Database)

/-- database.rs `CACHE` initialiser: 16 empty databases, indices 0..15. -/
def initCache : Cache := (List.range 16).foldl (fun c i => alInsert c i []) []

/-- The only error `db_list_keys` produces
(`anyhow::Error::msg` with text: database does not exist). -/
inductive StoreError where
  | DatabaseMissing
deriving DecidableEq

/-- database.rs `db_get`: phase 1 under the read lock computes the result
and a `should_remove` flag (an entry whose expiration is strictly before
`now` is invalid); phase 2 under the write lock removes the key.  The Rust
code `cache.get_mut(&db_id).unwrap()` cannot fail there because
`should_remove` is only set when the database contained the entry; the
model keeps the cache unchanged in that unreachable arm. -/
def db_get (now : Nat) (db_id : Nat) (key : List Nat) (cache : Cache) :
    Option DataType × Cache :=
  let phase1 : Option DataType × Bool :=
    match alGet cache db_id with
    | some database =>
      match alGet database key with
      | some entry =>
        let is_valid : Bool :=
          match entry.expiration with
          | some expiration => if expiration < now then false else true
          | none => true
        if is_valid then (some entry.value, false) else (none, true)
      | none => (none, false)
    | none => (none, false)
  if phase1.2 then
    match alGet cache db_id with
    | some database => (phase1.1, alInsert cache db_id (alScrub key database))
    | none => (phase1.1, cache)
  else (phase1.1, cache)

/-- database.rs `db_set`: under the write lock, if the database exists,
unconditionally insert the entry with absolute expiration `now + timeout`
when a timeout is given, else none.  A missing database id is a silent
no-op (the `if let` falls through and `Ok(())` is returned). -/
def db_set (now : Nat) (db_id : Nat) (key value : List Nat) (timeout : Option Nat)
    (cache : Cache) : Cache :=
  match alGet cache db_id with
  | some database =>
    let expiration := timeout.map (fun t => now + t)
    alInsert cache db_id (alInsert database key ⟨expiration, DataType.String value⟩)
  | none => cache

/-- database.rs `db_list_keys`: all keys of the database, or an error when
the database id is absent. -/
def db_list_keys (db_id : Nat) (cache : Cache) : Except StoreError (List (List Nat)) :=
  match alGet cache db_id with
  | some database => .ok (database.map Prod.fst)
  | none => .error .DatabaseMissing

/-- database.rs `db_load` over the file contents: the cache is cleared
first; a failed `RdbReader::read` is only logged (`Ok(())` with the cleared
cache); on success each file database is inserted with expirations merged
from `data.expirations` (always empty, see `RdbData`).  `none` models a
propagated Rust panic from the reader. -/
def db_load (file : List Nat) (cache : Cache) : Option Cache :=
  let cleared : Cache := []
  match rdbRead file with
  | .err _ => some cleared
  | .crash => none
  | .ok data =>
    some (data.databases.foldl
      (fun c p =>
        let expirations := alGet data.expirations p.1
        let remapped : Database := p.2.map (fun kv =>
          let expiration : Option Nat :=
            match expirations with
            | some exps => alGet exps kv.1
            | none => none
          (kv.1, ⟨expiration, kv.2⟩))
        alInsert c p.1 remapped)
      cleared)

/-! ### Concrete snapshot fixtures used in the theorems below -/

/-- `REDIS0011`, select db 0, opcode 0xFC, then the 8 timestamp bytes the
format mandates (all zero), then a string record `a ↦ b`, then EOF. -/
def c3bad : List Nat :=
  [82, 69, 68, 73, 83, 48, 48, 49, 49] ++ [254, 0] ++ [252] ++
    [0, 0, 0, 0, 0, 0, 0, 0] ++ [0, 1, 97, 1, 98] ++ [255] ++ [0, 0, 0, 0, 0, 0, 0, 0]

/-- Same as `c3bad` but with the 0xFC byte duplicated, which is what this
decoder actually consumes: opcode 0xFC, then a flag byte 0xFC, then the
8-byte timestamp. -/
def c3ok : List Nat :=
  [82, 69, 68, 73, 83, 48, 48, 49, 49] ++ [254, 0] ++ [252, 252] ++
    [0, 0, 0, 0, 0, 0, 0, 0] ++ [0, 1, 97, 1, 98] ++ [255] ++ [0, 0, 0, 0, 0, 0, 0, 0]

/-- `REDIS0011`, select db 0, then value-type tag 1 (List) with an empty
key: reaches the `todo!` arm of `read_value_type`. -/
def c5bad : List Nat := [82, 69, 68, 73, 83, 48, 48, 49, 49, 254, 0, 1, 0]

/-! ### Association-list lemmas -/

theorem alGet_alScrub_self {κ α : Type} [DecidableEq κ] (k : κ) (m : List (κ × α)) :
    alGet (alScrub k m) k = none := by
  induction m with
  | nil => rfl
  | cons p rest ih =>
    by_cases hp : p.1 = k <;> simp [alScrub, alGet, hp, ih]

theorem alGet_alScrub_ne {κ α : Type} [DecidableEq κ] {k k' : κ} (m : List (κ × α))
    (h : k' ≠ k) : alGet (alScrub k m) k' = alGet m k' := by
  induction m with
  | nil => rfl
  | cons p rest ih =>
    by_cases hp : p.1 = k
    · have hpk' : ¬ p.1 = k' := fun hk => h (by rw [← hk, hp])
      simp only [alScrub, alGet, if_pos hp, if_neg hpk', ih]
    · simp only [alScrub, alGet, if_neg hp, ih]

theorem alScrub_of_none {κ α : Type} [DecidableEq κ] {k : κ} {m : List (κ × α)}
    (h : alGet m k = none) : alScrub k m = m := by
  induction m with
  | nil => rfl
  | cons p rest ih =>
    by_cases hp : p.1 = k
    · simp [alGet, hp] at h
    · simp [alGet, hp] at h
      simp [alScrub, hp, ih h]

theorem alGet_alInsert_self {κ α : Type} [DecidableEq κ] (m : List (κ × α)) (k : κ) (v : α) :
    alGet (alInsert m k v) k = some v := by
  simp [alInsert, alGet]

theorem alGet_alInsert_ne {κ α : Type} [DecidableEq κ] (m : List (κ × α)) (k : κ) (v : α)
    {k' : κ} (h : k' ≠ k) : alGet (alInsert m k v) k' = alGet m k' := by
  have : ¬ k = k' := fun hk => h hk.symm
  simp [alInsert, alGet, this, alGet_alScrub_ne m h]

theorem alGet_alInsert_isSome {κ α : Type} [DecidableEq κ] (m : List (κ × α)) (k : κ) (v : α)
    (hk : (alGet m k).isSome) (i : κ) :
    (alGet (alInsert m k v) i).isSome ↔ (alGet m i).isSome := by
  by_cases hik : i = k
  · subst hik
    simp [alGet_alInsert_self, hk]
  · rw [alGet_alInsert_ne m k v hik]

theorem alGet_isSome_mem {κ α : Type} [DecidableEq κ] {m : List (κ × α)} {k : κ}
    (h : (alGet m k).isSome) : k ∈ m.map Prod.fst := by
  induction m with
  | nil => simp [alGet] at h
  | cons p rest ih =>
    by_cases hp : p.1 = k
    · simp [hp]
    · rw [alGet, if_neg hp] at h
      simp [ih h]

/-! ### Small facts about the store -/

theorem initCache_keys : initCache.map Prod.fst =
    [15, 14, 13, 12, 11, 10, 9, 8, 7, 6, 5, 4, 3, 2, 1, 0] := rfl

theorem initCache_lt (i : Nat) (h : i < 16) : alGet initCache i = some [] := by
  interval_cases i <;> rfl

theorem initCache_ge (i : Nat) (h : 16 ≤ i) : alGet initCache i = none := by
  cases hg : alGet initCache i with
  | none => rfl
  | some d =>
    have hmem : i ∈ initCache.map Prod.fst :=
      alGet_isSome_mem (m := initCache) (k := i) (by rw [hg]; rfl)
    rw [initCache_keys] at hmem
    simp at hmem
    omega

/-- The cache after `db_get` is either unchanged, or has the looked-up
database rebound with the key scrubbed. -/
theorem db_get_snd_cases (now db_id : Nat) (key : List Nat) (cache : Cache) :
    (db_get now db_id key cache).2 = cache ∨
    ∃ d, alGet cache db_id = some d ∧
      (db_get now db_id key cache).2 = alInsert cache db_id (alScrub key d) := by
  unfold db_get
  dsimp only
  split
  · split
    · rename_i d hd
      exact Or.inr ⟨d, hd, rfl⟩
    · exact Or.inl rfl
  · exact Or.inl rfl

/-! ### Bit-level facts used for the length-encoding claim -/

theorem and192_shr6 : ∀ b < 256, (b &&& 192) >>> 6 = b >>> 6 := by decide

theorem and63_mod64 : ∀ b < 256, b &&& 63 = b % 64 := by decide

/-! ### Claim theorems -/

/-- Claim C1 fails on the code: the encode/decode round trip breaks both on
nested arrays (the encoder emits no CRLF after an inner array while
`parse_array` skips `consumed + 2` bytes per element, so decoding
`*1\r\n*0\r\n` — the encoding of `Array[Array[]]` — panics on an
out-of-range slice) and on non-UTF-8 bulk-string payloads (the encoder
declares the raw byte length but writes the lossy-decoded payload, so
`BulkString [0xFF]` encodes to `$1\r\n<EF BF BD>\r\n` and decodes to
`BulkString [0xEF]`, a different value). -/
theorem c1_roundtrip_failure :
    write_resp (ResponseType.Array [ResponseType.Array []]) = [42, 49, 13, 10, 42, 48, 13, 10] ∧
    parse_resp [42, 49, 13, 10, 42, 48, 13, 10] = ParseOutcome.crash ∧
    write_resp (ResponseType.BulkString [255]) = [36, 49, 13, 10, 239, 191, 189, 13, 10] ∧
    parse_resp [36, 49, 13, 10, 239, 191, 189, 13, 10]
      = ParseOutcome.ok (ResponseType.BulkString [239]) 5 ∧
    ResponseType.BulkString [239] ≠ ResponseType.BulkString [255] := by
  refine ⟨?_, rfl, ?_, rfl, ?_⟩
  · simp only [write_resp, write_elems, write_bulk_string]
    decide
  · simp only [write_resp, write_bulk_string]
    decide
  · intro h
    injection h with h'
    exact absurd h' (by decide)

/-- Claim C2 fails on the code: on the strict prefix `$4\r\nE` of the
complete message `$4\r\nECHO\r\n`, `parse_bulk_string` slices
`remainder[..4]` with only one byte available and panics instead of
signalling incomplete, so byte-at-a-time delivery crashes the decoder
before the message completes (the complete message itself parses fine). -/
theorem c2_partial_message_crash :
    parse_resp [36, 52, 13, 10, 69] = ParseOutcome.crash ∧
    parse_resp [36, 52, 13, 10, 69, 67, 72, 79, 13, 10]
      = ParseOutcome.ok (ResponseType.BulkString [69, 67, 72, 79]) 8 ∧
    List.take 5 [36, 52, 13, 10, 69, 67, 72, 79, 13, 10] = [36, 52, 13, 10, 69] :=
  ⟨rfl, rfl, rfl⟩

/-- Claim C10 fails on the code: for the one-byte payload `[0xFF]` (invalid
UTF-8), `write_bulk_string` declares length 1 in the `$<len>\r\n` header but
writes the 3-byte lossy replacement `EF BF BD` as the payload. -/
theorem c10_bulk_length_mismatch :
    write_bulk_string [255] = [36, 49, 13, 10, 239, 191, 189, 13, 10] ∧
    (utf8Lossy [255]).length = 3 ∧ [(255 : Nat)].length = 1 :=
  ⟨rfl, rfl, rfl⟩

/-- Claim C3 fails on the code: after the 0xFC opcode is consumed by the
record loop, `read_expiry_timestamp` reads a further flag byte and
dispatches on it again, so on the documented layout (opcode, then 8
timestamp bytes) the first timestamp byte is taken as the flag and the load
errors (`c3bad`); the decoder only proceeds when the flag byte is
duplicated (`c3ok`), and even then the timestamp is discarded — the
returned expirations side-table is empty and the loaded store entry has no
expiration. -/
theorem c3_expiry_record_mismatch :
    rdbRead c3bad = RdbResult.err (RdbReadError.InvalidExpiryTimestampFlag 0) ∧
    rdbRead c3ok
      = RdbResult.ok ⟨11, [], [(0, [([97], DataType.String [98])])], []⟩ ∧
    db_load c3ok initCache = some [(0, [([97], ⟨none, DataType.String [98]⟩)])] :=
  ⟨rfl, rfl, rfl⟩

/-- Claim C4 fails on the code: `db_load` clears the whole cache before
reading the snapshot, and a failed read (here: an empty file) returns with
the cache still empty, so database index 0 no longer exists after the load
even though it exists initially. -/
theorem c4_counterexample :
    db_load [] initCache = some ([] : Cache) ∧
    alGet ([] : Cache) 0 = none ∧
    alGet initCache 0 = some [] :=
  ⟨rfl, rfl, rfl⟩

/-- Claim C4, amended: the sixteen namespaces 0–15 (and no others) exist in
the initial store and their existence is preserved by `db_get` and
`db_set`; `db_load` does not preserve them — it replaces the store, and
after a failed read the store is empty. -/
theorem c4_sixteen_namespaces :
    (∀ i, i < 16 → alGet initCache i = some []) ∧
    (∀ i, 16 ≤ i → alGet initCache i = none) ∧
    (∀ now db_id key cache i,
      (alGet ((db_get now db_id key cache).2) i).isSome ↔ (alGet cache i).isSome) ∧
    (∀ now db_id key value t cache i,
      (alGet (db_set now db_id key value t cache) i).isSome ↔ (alGet cache i).isSome) ∧
    (∀ file e cache, rdbRead file = RdbResult.err e → db_load file cache = some ([] : Cache)) := by
  refine ⟨initCache_lt, initCache_ge, ?_, ?_, ?_⟩
  · intro now db_id key cache i
    rcases db_get_snd_cases now db_id key cache with h | ⟨d, hd, h⟩
    · rw [h]
    · rw [h]
      exact alGet_alInsert_isSome cache db_id _ (by rw [hd]; rfl) i
  · intro now db_id key value t cache i
    unfold db_set
    cases hd : alGet cache db_id with
    | none => rfl
    | some d =>
      exact alGet_alInsert_isSome cache db_id _ (by rw [hd]; rfl) i
  · intro file e cache h
    simp [db_load, h]

/-- Witness for the amended C4 at concrete inputs. -/
theorem c4_witness :
    alGet initCache 0 = some [] ∧
    alGet initCache 16 = none ∧
    ((alGet ((db_get 0 0 [] initCache).2) 3).isSome ↔ (alGet initCache 3).isSome) ∧
    ((alGet (db_set 0 0 [] [] none initCache) 3).isSome ↔ (alGet initCache 3).isSome) ∧
    db_load [1] initCache = some ([] : Cache) :=
  ⟨c4_sixteen_namespaces.1 0 (by decide),
   c4_sixteen_namespaces.2.1 16 (by decide),
   c4_sixteen_namespaces.2.2.1 0 0 [] initCache 3,
   c4_sixteen_namespaces.2.2.2.1 0 0 [] [] none initCache 3,
   c4_sixteen_namespaces.2.2.2.2 [1] RdbReadError.IoError initCache rfl⟩

/-- Claim C5 fails on the code: the byte content `c5bad` (a well-formed
header followed by value-type tag 1) reaches the `todo!` arm of
`read_value_type` — a panic, not a reported error value. -/
theorem c5_counterexample :
    rdbRead c5bad = RdbResult.crash ∧ db_load c5bad initCache = none :=
  ⟨rfl, rfl⟩

/-- Claim C5, amended: when the parse does not reach one of the two
unimplemented panic paths (special-format string selectors at or above 3,
non-string value-type tags — the only sources of `crash` in the reader),
the load either succeeds or reports an error value, and after a reported
failure the process proceeds with an empty store. -/
theorem c5_error_resilience (file : List Nat) (cache : Cache)
    (hnc : rdbRead file ≠ RdbResult.crash) :
    (∃ c, db_load file cache = some c) ∧
    (∀ e, rdbRead file = RdbResult.err e → db_load file cache = some ([] : Cache)) := by
  unfold db_load
  cases h : rdbRead file with
  | ok d =>
    refine ⟨⟨_, rfl⟩, ?_⟩
    intro e he
    exact RdbResult.noConfusion he
  | err e => exact ⟨⟨[], rfl⟩, fun _ _ => rfl⟩
  | crash => exact absurd h hnc

/-- Witness for the amended C5 at a concrete input (the empty file, whose
read reports an IO error). -/
theorem c5_witness :
    (∃ c, db_load [] initCache = some c) ∧
    (∀ e, rdbRead [] = RdbResult.err e → db_load [] initCache = some ([] : Cache)) :=
  c5_error_resilience [] initCache (by decide)

/-- Claim C6: for a stored entry, an expiration strictly in the past at
read time makes `db_get` return `none` and remove the key; an entry with no
expiration is returned unchanged at every read time; and the removal is
idempotent — scrubbing an absent key is a no-op. -/
theorem c6_lazy_expiration (cache : Cache) (db_id : Nat) (key : List Nat) (d : Database)
    (e : CacheEntry) (now exp : Nat) (hdb : db_id < 16)
    (hd : alGet cache db_id = some d) (he : alGet d key = some e) :
    (e.expiration = some exp → exp < now →
      (db_get now db_id key cache).1 = none ∧
      (db_get now db_id key cache).2 = alInsert cache db_id (alScrub key d) ∧
      alGet (alScrub key d) key = none) ∧
    (e.expiration = none → db_get now db_id key cache = (some e.value, cache)) ∧
    (∀ (d2 : Database) (k2 : List Nat), alGet d2 k2 = none → alScrub k2 d2 = d2) := by
  refine ⟨?_, ?_, fun d2 k2 h => alScrub_of_none h⟩
  · intro hex hlt
    refine ⟨?_, ?_, alGet_alScrub_self key d⟩ <;>
      simp [db_get, hd, he, hex, hlt]
  · intro hnone
    simp [db_get, hd, he, hnone]

/-- Witness for C6: an expired entry (expiration 5, read at 10) is reported
absent and scrubbed; an entry without expiration is returned unchanged. -/
theorem c6_witness :
    (db_get 10 0 [107] [(0, [([107], ⟨some 5, DataType.String [118]⟩)])]).1 = none ∧
    db_get 10 0 [107] [(0, [([107], ⟨none, DataType.String [118]⟩)])]
      = (some (DataType.String [118]), [(0, [([107], ⟨none, DataType.String [118]⟩)])]) :=
  ⟨((c6_lazy_expiration [(0, [([107], ⟨some 5, DataType.String [118]⟩)])] 0 [107]
      [([107], ⟨some 5, DataType.String [118]⟩)] ⟨some 5, DataType.String [118]⟩ 10 5
      (by decide) rfl rfl).1 rfl (by decide)).1,
   (c6_lazy_expiration [(0, [([107], ⟨none, DataType.String [118]⟩)])] 0 [107]
      [([107], ⟨none, DataType.String [118]⟩)] ⟨none, DataType.String [118]⟩ 10 0
      (by decide) rfl rfl).2.1 rfl⟩

/-- Claim C7: on an existing database, `db_set` without TTL rebinds the key
to the value with no expiration (clearing any prior TTL), an immediate or
arbitrarily later `db_get` returns the set value unchanged, and `db_set`
with a TTL rebinds the key with absolute expiration `now + ttl`. -/
theorem c7_set_then_get (cache : Cache) (db_id : Nat) (key value : List Nat)
    (tset tget : Nat) (d : Database) (hdb : db_id < 16)
    (hd : alGet cache db_id = some d) :
    db_set tset db_id key value none cache
      = alInsert cache db_id (alInsert d key ⟨none, DataType.String value⟩) ∧
    (db_get tget db_id key (db_set tset db_id key value none cache)).1
      = some (DataType.String value) ∧
    (∀ ttl, db_set tset db_id key value (some ttl) cache
      = alInsert cache db_id (alInsert d key ⟨some (tset + ttl), DataType.String value⟩)) := by
  have h1 : db_set tset db_id key value none cache
      = alInsert cache db_id (alInsert d key ⟨none, DataType.String value⟩) := by
    simp [db_set, hd]
  refine ⟨h1, ?_, fun ttl => by simp [db_set, hd]⟩
  rw [h1]
  simp [db_get, alGet_alInsert_self]

/-- Witness for C7 on database 3 with a concrete key and value. -/
theorem c7_witness :
    (db_get 7 3 [9] (db_set 2 3 [9] [8] none [(3, [])])).1 = some (DataType.String [8]) :=
  (c7_set_then_get [(3, [])] 3 [9] [8] 2 7 [] (by decide) rfl).2.1

/-- Claim C8: the snapshot length encoding — top bits 00 give the low six
bits as the length; 01 gives the low six bits shifted left 8 OR the next
byte; 10 gives the next four bytes as a little-endian 32-bit value; 11
where a plain length is required fails with
`SpecialFormatInvalidIntEncoded`, while in a string context selectors 0/1/2
stringify the next 1/2/4 little-endian bytes in base 10; and the three
literal cases from the specification. -/
theorem c8_length_encoding (b b2 b3 b4 b5 : Nat) (rest : List Nat) (hb : b < 256) :
    (b >>> 6 = 0 → read_length_encoded_int (b :: rest) = RdbResult.ok (b % 64, rest)) ∧
    (b >>> 6 = 1 → read_length_encoded_int (b :: b2 :: rest)
      = RdbResult.ok (((b % 64) <<< 8) ||| b2, rest)) ∧
    (b >>> 6 = 2 → read_length_encoded_int (b :: b2 :: b3 :: b4 :: b5 :: rest)
      = RdbResult.ok (b2 + 256 * (b3 + 256 * (b4 + 256 * b5)), rest)) ∧
    (b >>> 6 = 3 → read_length_encoded_int (b :: rest)
      = RdbResult.err RdbReadError.SpecialFormatInvalidIntEncoded) ∧
    (b >>> 6 = 3 → b % 64 = 0 → read_string_encoded (b :: b2 :: rest)
      = RdbResult.ok (natDecimal b2, rest)) ∧
    (b >>> 6 = 3 → b % 64 = 1 → read_string_encoded (b :: b2 :: b3 :: rest)
      = RdbResult.ok (natDecimal (b2 + 256 * b3), rest)) ∧
    (b >>> 6 = 3 → b % 64 = 2 → read_string_encoded (b :: b2 :: b3 :: b4 :: b5 :: rest)
      = RdbResult.ok (natDecimal (b2 + 256 * (b3 + 256 * (b4 + 256 * b5))), rest)) ∧
    read_length_encoded_int [5] = RdbResult.ok (5, []) ∧
    read_length_encoded_int [65, 2] = RdbResult.ok (258, []) ∧
    read_string_encoded [192, 42] = RdbResult.ok ([52, 50], []) := by
  have h192 := and192_shr6 b hb
  have h63 := and63_mod64 b hb
  refine ⟨?_, ?_, ?_, ?_, ?_, ?_, ?_, by decide, by decide, by decide⟩
  · intro h0
    simp [read_length_encoded_int, read_length_encoding, readU8, h192, h0, h63,
      interpret_length_encoding]
  · intro h1
    simp [read_length_encoded_int, read_length_encoding, readU8, h192, h1, h63,
      interpret_length_encoding]
  · intro h2
    simp [read_length_encoded_int, read_length_encoding, readU8, h192, h2,
      interpret_length_encoding, readU32le, readExact, leValue]
  · intro h3
    simp [read_length_encoded_int, read_length_encoding, readU8, h192, h3,
      interpret_length_encoding]
  · intro h3 hm
    simp [read_string_encoded, read_length_encoding, readU8, h192, h3, h63, hm]
  · intro h3 hm
    simp [read_string_encoded, read_length_encoding, readU8, h192, h3, h63, hm,
      readU16le, readExact, leValue]
  · intro h3 hm
    simp [read_string_encoded, read_length_encoding, readU8, h192, h3, h63, hm,
      readU32le, readExact, leValue]

/-- Witness for C8: the specification's literal cases, obtained from the
universally quantified statement. -/
theorem c8_witness :
    read_length_encoded_int [5] = RdbResult.ok (5 % 64, []) ∧
    read_string_encoded [192, 42] = RdbResult.ok (natDecimal 42, []) :=
  ⟨(c8_length_encoding 5 0 0 0 0 [] (by decide)).1 (by decide),
   (c8_length_encoding 192 42 0 0 0 [] (by decide)).2.2.2.2.1 (by decide) (by decide)⟩

/-- Claim C9: against a store whose databases all have indices below 16, an
out-of-range database id makes `db_get` return the absent result without
error and without mutation, `db_set` complete without error leaving the
store unchanged, and `db_list_keys` fail with the database-missing error. -/
theorem c9_out_of_range (cache : Cache) (db_id : Nat) (key value : List Nat)
    (t : Option Nat) (now : Nat) (hout : 16 ≤ db_id)
    (hdom : ∀ i, (alGet cache i).isSome → i < 16) :
    db_get now db_id key cache = (none, cache) ∧
    db_set now db_id key value t cache = cache ∧
    db_list_keys db_id cache = Except.error StoreError.DatabaseMissing := by
  have hnone : alGet cache db_id = none := by
    cases h : alGet cache db_id with
    | none => rfl
    | some d => exact absurd (hdom db_id (by rw [h]; rfl)) (by omega)
  exact ⟨by simp [db_get, hnone], by simp [db_set, hnone], by simp [db_list_keys, hnone]⟩

/-- Witness for C9 at database id 16 on the empty store. -/
theorem c9_witness :
    db_get 0 16 [] [] = (none, []) ∧
    db_set 0 16 [] [] none [] = ([] : Cache) ∧
    db_list_keys 16 [] = Except.error StoreError.DatabaseMissing :=
  c9_out_of_range [] 16 [] [] none 0 (by decide) (fun i h => by simp [alGet] at h)

end RedisModel
